import Mathlib

/-!
Verification of the session-orchestration core of the stata-mcp bridge.

The definitions below are a shallow embedding of the Python sources
`src/stata_worker.py` and `src/session_manager.py`.  Pure string
processing is translated to Lean functions on `String`; the worker's
stop machinery and the manager's session bookkeeping are translated to
explicit state passing over small record types; wall-clock instants and
durations (floats in the source) are modelled as integers, which is
enough because every claim about them is order-theoretic.  Python
strings are `String`, except where a claim's witness must evaluate
string scans, where the underlying `List Char` is used.  Each
definition cites the source lines it embeds.
-/

namespace StataMcp

/-! ### Worker stop machinery (`src/stata_worker.py`)

The worker process keeps four pieces of mutable state relevant to
cancellation: its lifecycle state `worker_state`, the booleans
`cancelled` and `stop_already_sent`, and the cross-process stop flag
`stop_event`.  We add a ghost counter `breakCalls` counting the calls
to the engine break primitive `StataSO_SetBreak` (line 675): the code
holds no such counter, the field only records how often that line runs.
The model takes the configuration the session manager always builds:
`stop_event` is present (`_create_session_internal`, line 291) and
`stlib` is initialized, so a reached `StataSO_SetBreak()` call counts.
-/

/-- Worker lifecycle states, from the `WorkerState` enum
(`stata_worker.py` lines 52-60). -/
inductive WorkerStateE where
  | created
  | initializing
  | ready
  | busy
  | stopping
  | stopped
  | initFailed
  deriving DecidableEq, Repr

/-- The worker-process mutable state relevant to the stop machinery:
`worker_state`, `cancelled`, `stop_already_sent`, the shared stop flag,
and the ghost count of engine break calls. -/
structure WorkerFlags where
  workerState : WorkerStateE
  cancelled : Bool
  stopAlreadySent : Bool
  stopFlag : Bool
  breakCalls : Nat
  deriving DecidableEq, Repr

/-- `handle_stop` (`stata_worker.py` lines 652-679): returns without
calling the break primitive when `stop_already_sent` is true or the
worker is not BUSY; otherwise sets `cancelled` and `stop_already_sent`
and calls `StataSO_SetBreak` exactly once.  The second component is the
Python return value. -/
def handle_stop (s : WorkerFlags) : WorkerFlags × Bool :=
  if s.stopAlreadySent then
    (s, true)
  else if s.workerState ≠ WorkerStateE.busy then
    (s, false)
  else
    ({ s with cancelled := true, stopAlreadySent := true,
              breakCalls := s.breakCalls + 1 }, true)

/-- The events that can touch the stop machinery while an execution is
in flight: the manager setting the stop flag
(`session_manager.py` line 712), one iteration of the worker's stop
monitor (`stata_worker.py` lines 686-712), and the queue-based
`STOP_EXECUTION` branch of the worker loop (lines 775-785). -/
inductive StopStep where
  | signalStop
  | monitorPoll
  | queueStop
  deriving DecidableEq, Repr

/-- One event of the stop machinery.  `monitorPoll` observes the stop
flag, clears it first, and only then calls `handle_stop` when the
worker is BUSY (`stata_worker.py` lines 693-703); `queueStop` calls
`handle_stop` when BUSY and otherwise reports `not_running`
(lines 778-785). -/
def stepStop (s : WorkerFlags) : StopStep → WorkerFlags
  | StopStep.signalStop => { s with stopFlag := true }
  | StopStep.monitorPoll =>
      if s.stopFlag then
        if ({ s with stopFlag := false } : WorkerFlags).workerState
            = WorkerStateE.busy then
          (handle_stop { s with stopFlag := false }).1
        else { s with stopFlag := false }
      else s
  | StopStep.queueStop =>
      if s.workerState = WorkerStateE.busy then (handle_stop s).1 else s

/-- The atomic assignments at the start of `execute_stata_code`
(`stata_worker.py` lines 437-444) and `execute_stata_file`
(lines 569-576): set BUSY, clear the stop event, reset `cancelled`,
reset `stop_already_sent`. -/
inductive StartAction where
  | setBusy
  | clearStopFlag
  | resetCancelled
  | resetStopSent
  deriving DecidableEq, Repr

/-- Effect of one start-sequence assignment on the worker state. -/
def applyStartAction (s : WorkerFlags) : StartAction → WorkerFlags
  | StartAction.setBusy => { s with workerState := WorkerStateE.busy }
  | StartAction.clearStopFlag => { s with stopFlag := false }
  | StartAction.resetCancelled => { s with cancelled := false }
  | StartAction.resetStopSent => { s with stopAlreadySent := false }

/-- The start sequence of `execute_stata_code`, in source order
(`stata_worker.py` lines 437-444, with `stop_event` present as the
manager always passes one). -/
def executeCodeStartSeq : List StartAction :=
  [StartAction.setBusy, StartAction.clearStopFlag,
   StartAction.resetCancelled, StartAction.resetStopSent]

/-- The start sequence of `execute_stata_file`, in source order
(`stata_worker.py` lines 569-576). -/
def executeFileStartSeq : List StartAction :=
  [StartAction.setBusy, StartAction.clearStopFlag,
   StartAction.resetCancelled, StartAction.resetStopSent]

/-- Worker state right after the start sequence of an EXECUTE or
EXECUTE_FILE command. -/
def execStart (s : WorkerFlags) : WorkerFlags :=
  executeCodeStartSeq.foldl applyStartAction s

theorem handle_stop_breakCalls_le (s : WorkerFlags) :
    (handle_stop s).1.breakCalls ≤ s.breakCalls + 1 := by
  unfold handle_stop
  split
  · exact Nat.le_succ _
  · split
    · exact Nat.le_succ _
    · exact Nat.le_refl _

/-- The per-trace invariant behind the one-shot break contract: the
break counter exceeds its value at execution start only if
`stop_already_sent` is set, and by at most one. -/
def breakInv (base : Nat) (s : WorkerFlags) : Prop :=
  s.breakCalls ≤ base + (if s.stopAlreadySent then 1 else 0)

theorem handle_stop_stopFlag (s : WorkerFlags) :
    (handle_stop s).1.stopFlag = s.stopFlag := by
  unfold handle_stop
  split
  · rfl
  · split
    · rfl
    · rfl

theorem handle_stop_preserves_breakInv {base : Nat} {s : WorkerFlags}
    (h : breakInv base s) : breakInv base (handle_stop s).1 := by
  unfold breakInv at h ⊢
  unfold handle_stop
  split
  · rename_i hsent
    simp [hsent] at h ⊢
    omega
  · split
    · rename_i hsent _
      simp only [Bool.not_eq_true] at hsent
      simp [hsent] at h ⊢
      omega
    · rename_i hsent _
      simp only [Bool.not_eq_true] at hsent
      simp [hsent] at h ⊢
      omega

theorem monitorPoll_preserves_breakInv {base : Nat} {s : WorkerFlags}
    (h : breakInv base s) : breakInv base (stepStop s StopStep.monitorPoll) := by
  have hclear : breakInv base { s with stopFlag := false } := h
  simp only [stepStop]
  split
  · split
    · exact handle_stop_preserves_breakInv hclear
    · exact hclear
  · exact h

theorem monitorPoll_clears_stopFlag (t : WorkerFlags) :
    (stepStop { t with stopFlag := true } StopStep.monitorPoll).stopFlag
      = false := by
  simp only [stepStop]
  split
  · split
    · rw [handle_stop_stopFlag]
    · rfl
  · rename_i hc
    exact absurd trivial hc

theorem stepStop_preserves_breakInv {base : Nat} {s : WorkerFlags}
    (h : breakInv base s) (e : StopStep) : breakInv base (stepStop s e) := by
  cases e with
  | signalStop => exact h
  | monitorPoll => exact monitorPoll_preserves_breakInv h
  | queueStop =>
      simp only [stepStop]
      split
      · exact handle_stop_preserves_breakInv h
      · exact h

theorem foldl_stepStop_preserves_breakInv {base : Nat} {s : WorkerFlags}
    (h : breakInv base s) (steps : List StopStep) :
    breakInv base (steps.foldl stepStop s) := by
  induction steps generalizing s with
  | nil => exact h
  | cons e rest ih => exact ih (stepStop_preserves_breakInv h e)

theorem execStart_breakCalls (s : WorkerFlags) :
    (execStart s).breakCalls = s.breakCalls := rfl

theorem execStart_stopAlreadySent (s : WorkerFlags) :
    (execStart s).stopAlreadySent = false := rfl

/-- C1: For every single execution (one EXECUTE or EXECUTE_FILE
command), the worker calls the engine break primitive
(`StataSO_SetBreak`) at most once, no matter how many stop signals are
set during that execution: after the execution's start sequence, any
interleaving of stop signals, monitor polls and queue-based stop
commands increases the break-call count by at most one; `handle_stop`
leaves the break-call count unchanged when `stop_already_sent` is true;
and the stop monitor clears the stop flag in the same poll that
observes it. -/
theorem c1_single_break_per_execution (s : WorkerFlags)
    (steps : List StopStep) :
    (steps.foldl stepStop (execStart s)).breakCalls ≤ s.breakCalls + 1 ∧
    (∀ t : WorkerFlags,
      (handle_stop { t with stopAlreadySent := true }).1.breakCalls
        = t.breakCalls) ∧
    (∀ t : WorkerFlags,
      (stepStop { t with stopFlag := true } StopStep.monitorPoll).stopFlag
        = false) := by
  refine ⟨?_, ?_, ?_⟩
  · have hinv : breakInv s.breakCalls (execStart s) := by
      unfold breakInv
      rw [execStart_breakCalls, execStart_stopAlreadySent]
      simp
    have h := foldl_stepStop_preserves_breakInv hinv steps
    unfold breakInv at h
    split at h
    · exact h
    · omega
  · intro t
    simp [handle_stop]
  · intro t
    exact monitorPoll_clears_stopFlag t

/-- C3: At the start of every EXECUTE and EXECUTE_FILE handling in the
worker, the stop flag is cleared strictly before the `cancelled` and
`stop_already_sent` booleans are reset, and immediately after the start
sequence the stop flag is clear, `cancelled = false` and
`stop_already_sent = false`.  Both start sequences are identical. -/
theorem c3_start_sequence_order (s : WorkerFlags) :
    ((executeCodeStartSeq.foldl applyStartAction s).stopFlag = false ∧
     (executeCodeStartSeq.foldl applyStartAction s).cancelled = false ∧
     (executeCodeStartSeq.foldl applyStartAction s).stopAlreadySent = false) ∧
    executeCodeStartSeq.indexOf StartAction.clearStopFlag
      < executeCodeStartSeq.indexOf StartAction.resetCancelled ∧
    executeCodeStartSeq.indexOf StartAction.clearStopFlag
      < executeCodeStartSeq.indexOf StartAction.resetStopSent ∧
    executeFileStartSeq = executeCodeStartSeq := by
  refine ⟨⟨rfl, rfl, rfl⟩, ?_, ?_, rfl⟩ <;> decide

/-! ### Session manager data model (`src/session_manager.py`) -/

/-- Session lifecycle states, from the `SessionState` enum
(`session_manager.py` lines 86-93). -/
inductive SessionStateE where
  | creating
  | ready
  | busy
  | error
  | destroying
  | destroyed
  deriving DecidableEq, Repr

/-- The `.value` string of each `SessionState` member. -/
def sessionStateValue : SessionStateE → String
  | SessionStateE.creating => "creating"
  | SessionStateE.ready => "ready"
  | SessionStateE.busy => "busy"
  | SessionStateE.error => "error"
  | SessionStateE.destroying => "destroying"
  | SessionStateE.destroyed => "destroyed"

/-- The `Session` record (`session_manager.py` lines 96-109), restricted
to the fields the claims are about.  `hasStopEvent` records whether
`stop_event` is not `None` (`_create_session_internal` always creates
one, line 291), and `stopFlagSet` is the state of that event. -/
structure SessionRec where
  sessionId : String
  state : SessionStateE
  currentCommandId : Option String
  hasStopEvent : Bool
  stopFlagSet : Bool
  isDefault : Bool
  deriving DecidableEq, Repr

/-- Command types, from the `CommandType` enum
(`stata_worker.py` lines 63-70). -/
inductive CommandTypeE where
  | execute
  | executeFile
  | getStatus
  | stopExecution
  | getData
  | exit
  deriving DecidableEq, Repr

/-- A result message on a session's result queue, from the
`WorkerResult` dataclass (`stata_worker.py` lines 82-93); `extra` is
modelled as an association list of its string entries. -/
structure ResultMsg where
  commandId : String
  status : String
  output : String
  error : String
  executionTime : ℤ
  extra : List (String × String)
  deriving DecidableEq, Repr

/-- The dictionary `_execute_command` returns to its caller
(`session_manager.py` lines 813-821 and 828-832).  Keys absent from the
timeout dictionary are modelled as their defaults. -/
structure ExecResponse where
  status : String
  output : String
  error : String
  executionTime : ℤ
  sessionId : String
  logFile : String
  deriving DecidableEq, Repr

/-- The session-registry of the manager, as an association list from
session id to session record (`self._sessions`, line 168). -/
abbrev Registry := List (String × SessionRec)

/-- `get_session` (`session_manager.py` lines 411-424): a missing
`session_id` falls back to the default session id `"default"`. -/
def getSession (reg : Registry) (sid : Option String) : Option SessionRec :=
  reg.lookup (sid.getD "default")

/-! ### `_execute_command` (`session_manager.py` lines 728-843) -/

/-- The session bookkeeping at the top of `_execute_command`
(lines 755-760): the state is set to BUSY only for EXECUTE and
EXECUTE_FILE commands, but `current_command_id` is set for every
command type. -/
def execCmdUpdate (s : SessionRec) (ct : CommandTypeE) (c : String) :
    SessionRec :=
  if ct = CommandTypeE.execute ∨ ct = CommandTypeE.executeFile then
    { s with state := SessionStateE.busy, currentCommandId := some c }
  else
    { s with currentCommandId := some c }

/-- The session bookkeeping after a result or a queue timeout
(lines 804-808 and 823-826): back to READY with no command in flight. -/
def execCmdComplete (s : SessionRec) : SessionRec :=
  { s with state := SessionStateE.ready, currentCommandId := none }

/-- The session bookkeeping when sending or waiting raises
(lines 834-837): the state becomes ERROR and `current_command_id` is
not cleared. -/
def execCmdException (s : SessionRec) : SessionRec :=
  { s with state := SessionStateE.error }

/-- The result-queue read loop of `_execute_command` (lines 770-802).
Queue entries carry their arrival time; the loop reads entries in FIFO
order while the wall clock is before `deadline`, returns the first
entry whose `command_id` matches, and discards every other entry.  An
entry arriving at or after the deadline is never read: the loop's
`while time.time() < deadline` exits first. -/
def drainLoopT (c : String) (deadline : ℤ) :
    List (ℤ × ResultMsg) → Option ResultMsg
  | [] => none
  | (t, r) :: rest =>
      if t < deadline then
        if r.commandId = c then some r else drainLoopT c deadline rest
      else none

/-- The response built from a matching result (lines 810-821);
`log_file` comes from `extra.get('log_file', '')`. -/
def matchedResponse (sid : String) (r : ResultMsg) : ExecResponse :=
  { status := r.status
    output := r.output
    error := r.error
    executionTime := r.executionTime
    sessionId := sid
    logFile := (r.extra.lookup "log_file").getD "" }

/-- The synthesized timeout response (lines 828-832). -/
def timeoutResponse (sid : String) (timeout : ℤ) : ExecResponse :=
  { status := "timeout"
    output := ""
    error := "Command timeout after " ++ toString timeout ++ "s"
    executionTime := 0
    sessionId := sid
    logFile := "" }

/-- The wait phase of `_execute_command` for a command with id `c`
sent at `startWait` (lines 772-832): the hard deadline on the
result-queue read is `startWait + timeout + 5.0` (line 774). -/
def executeCommandWait (session : SessionRec) (c : String)
    (timeout startWait : ℤ) (q : List (ℤ × ResultMsg)) :
    ExecResponse × SessionRec :=
  match drainLoopT c (startWait + timeout + 5) q with
  | some r => (matchedResponse session.sessionId r, execCmdComplete session)
  | none => (timeoutResponse session.sessionId timeout, execCmdComplete session)

theorem drainLoopT_eq_some {c : String} {deadline : ℤ} :
    ∀ {q : List (ℤ × ResultMsg)} {r : ResultMsg},
      drainLoopT c deadline q = some r →
        r.commandId = c ∧ ∃ t, (t, r) ∈ q ∧ t < deadline := by
  intro q
  induction q with
  | nil => intro r h; simp [drainLoopT] at h
  | cons p rest ih =>
      intro r h
      obtain ⟨t, r0⟩ := p
      simp only [drainLoopT] at h
      split at h
      · split at h
        · rename_i ht hid
          cases h
          exact ⟨hid, t, by simp, ht⟩
        · obtain ⟨hid, t', hmem, ht'⟩ := ih h
          exact ⟨hid, t', by simp [hmem], ht'⟩
      · exact absurd h (by simp)

theorem drainLoopT_none_of_late {c : String} {deadline : ℤ} :
    ∀ {q : List (ℤ × ResultMsg)},
      (∀ p ∈ q, p.2.commandId = c → deadline ≤ p.1) →
      drainLoopT c deadline q = none := by
  intro q
  induction q with
  | nil => intro _; rfl
  | cons p rest ih =>
      intro h
      obtain ⟨t, r⟩ := p
      simp only [drainLoopT]
      split
      · split
        · rename_i ht hid
          have hle := h (t, r) (by simp) hid
          exact absurd ht (not_lt.mpr hle)
        · exact ih fun p hp => h p (by simp [hp])
      · rfl

/-- C2: For every call to `SessionManager._execute_command` (hence
`execute`/`execute_file`/`get_data`) that sends a command with id `c`,
the loop reading the result queue runs until a hard deadline of
`timeout + 5` seconds past the start of the wait; it discards every
result whose `command_id` differs from `c` (including the out-of-band
`_stop` and `_init` entries and results of previous commands), never
reads an entry arriving at or after the deadline, returns a matching
result only, and any non-timeout response is built from a queue entry
with `command_id = c`. -/
theorem c2_result_queue_matching (session : SessionRec) (c : String)
    (timeout startWait : ℤ) (q : List (ℤ × ResultMsg)) :
    (∀ r, drainLoopT c (startWait + timeout + 5) q = some r →
        r.commandId = c ∧ ∃ t, (t, r) ∈ q ∧ t < startWait + timeout + 5) ∧
    (∀ r, r.commandId ≠ c →
        drainLoopT c (startWait + timeout + 5) q ≠ some r) ∧
    ((∀ p ∈ q, p.2.commandId = c → startWait + timeout + 5 ≤ p.1) →
        (executeCommandWait session c timeout startWait q).1
          = timeoutResponse session.sessionId timeout) ∧
    ((executeCommandWait session c timeout startWait q).1
          = timeoutResponse session.sessionId timeout ∨
      ∃ r, drainLoopT c (startWait + timeout + 5) q = some r ∧
        r.commandId = c ∧
        (executeCommandWait session c timeout startWait q).1
          = matchedResponse session.sessionId r) := by
  refine ⟨fun r h => drainLoopT_eq_some h, ?_, ?_, ?_⟩
  · intro r hr h
    exact hr (drainLoopT_eq_some h).1
  · intro hlate
    simp [executeCommandWait, drainLoopT_none_of_late hlate]
  · rcases hd : drainLoopT c (startWait + timeout + 5) q with _ | r
    · left
      simp [executeCommandWait, hd]
    · right
      exact ⟨r, rfl, (drainLoopT_eq_some hd).1, by simp [executeCommandWait, hd]⟩

/-- Witness for C2, at a queue holding an out-of-band `_stop` entry
followed by the matching result. -/
theorem c2_result_queue_matching_witness :
    (⟨"c1", "success", "ok", "", 1, []⟩ : ResultMsg).commandId = "c1" ∧
    ∃ t, (t, (⟨"c1", "success", "ok", "", 1, []⟩ : ResultMsg)) ∈
        ([((0 : ℤ), ⟨"_stop", "stopped", "", "", 0, []⟩),
          (1, ⟨"c1", "success", "ok", "", 1, []⟩)] :
            List (ℤ × ResultMsg)) ∧
      t < 0 + 3 + 5 :=
  (c2_result_queue_matching
      ⟨"default", SessionStateE.ready, none, true, false, true⟩ "c1" 3 0
      [((0 : ℤ), ⟨"_stop", "stopped", "", "", 0, []⟩),
       (1, ⟨"c1", "success", "ok", "", 1, []⟩)]).1
    ⟨"c1", "success", "ok", "", 1, []⟩ (by rfl)

/-! ### C6: the `BUSY ⇔ in-flight` bookkeeping of `_execute_command` -/

/-- The spec's session invariant: `state = BUSY ⇔ current_command_id ≠ none`. -/
def busyIffInFlight (s : SessionRec) : Prop :=
  s.state = SessionStateE.busy ↔ s.currentCommandId ≠ none

/-- C6 counterexample: handling a GET_DATA command, `_execute_command`
(lines 755-760) sets `current_command_id` without setting the state to
BUSY, so a READY session has a command id in flight while its state is
not BUSY, refuting `state = BUSY ⇔ current_command_id ≠ none`. -/
theorem c6_counterexample :
    ¬ busyIffInFlight
        (execCmdUpdate ⟨"default", SessionStateE.ready, none, true, false, true⟩
          CommandTypeE.getData "c1") := by
  unfold busyIffInFlight execCmdUpdate
  decide

/-- C6 (amended): during `_execute_command`'s bookkeeping, the
equivalence `state = BUSY ⇔ current_command_id ≠ none` holds after the
entry update and after the completion update for EXECUTE and
EXECUTE_FILE commands; but for GET_DATA and GET_STATUS commands the
entry update sets `current_command_id` while leaving the session state
unchanged, so on a READY session the equivalence is violated while such
a command is in flight. -/
theorem c6_busy_iff_in_flight (s : SessionRec) (c : String) :
    busyIffInFlight (execCmdUpdate s CommandTypeE.execute c) ∧
    busyIffInFlight (execCmdComplete (execCmdUpdate s CommandTypeE.execute c)) ∧
    busyIffInFlight (execCmdUpdate s CommandTypeE.executeFile c) ∧
    busyIffInFlight
      (execCmdComplete (execCmdUpdate s CommandTypeE.executeFile c)) ∧
    (execCmdUpdate s CommandTypeE.getData c).state = s.state ∧
    (execCmdUpdate s CommandTypeE.getData c).currentCommandId = some c ∧
    (execCmdUpdate s CommandTypeE.getStatus c).state = s.state ∧
    (execCmdUpdate s CommandTypeE.getStatus c).currentCommandId = some c := by
  refine ⟨?_, ?_, ?_, ?_, ?_, ?_, ?_, ?_⟩ <;>
    simp [busyIffInFlight, execCmdUpdate, execCmdComplete]

/-! ### C4: status of a cancelled execution (`stata_worker.py`) -/

/-- The break marker searched for by `'--Break--' in ...`. -/
def breakMarker : List Char := "--Break--".toList

/-- Substring test on character lists: `pat` occurs contiguously in
the second argument. -/
def hasInfix (pat : List Char) : List Char → Bool
  | [] => pat.isEmpty
  | a :: rest => pat.isPrefixOf (a :: rest) || hasInfix pat rest

/-- Python's substring test `'--Break--' in s`
(`stata_worker.py` lines 510, 532, 637, 647). -/
def containsBreak (s : String) : Bool := hasInfix breakMarker s.toList

/-- The classification at the end of a completed `execute_stata_code`
run (lines 509-517), applied to the output after break-message
deduplication: a set `cancelled` flag or a break marker in the output
yields `(success := false, output, "Execution cancelled")`. -/
def classifyExecResult (cancelled : Bool) (output : String) :
    Bool × String × String :=
  if cancelled || containsBreak output then (false, output, "Execution cancelled")
  else (true, output, "")

/-- The classification of an exception raised during
`execute_stata_code` (lines 527-535): a break marker in the exception
text or a set `cancelled` flag yields
`(success := false, "", "Execution cancelled")`. -/
def classifyExecException (cancelled : Bool) (errorStr : String) :
    Bool × String × String :=
  if containsBreak errorStr || cancelled then (false, "", "Execution cancelled")
  else (false, "", errorStr)

/-- The status string the worker loop sends for an EXECUTE or
EXECUTE_FILE result: `"success" if success else "error"`
(`stata_worker.py` lines 805-807 and 836-838). -/
def executeSendStatus (success : Bool) : String :=
  if success then "success" else "error"

/-- C4 counterexample: a cancelled EXECUTE (cancelled flag set, output
`"ok"`) is sent with status `"error"`, not `"cancelled"`. -/
theorem c4_counterexample :
    executeSendStatus (classifyExecResult true "ok").1 = "error" ∧
    executeSendStatus (classifyExecResult true "ok").1 ≠ "cancelled" ∧
    (classifyExecResult true "ok").2.2 = "Execution cancelled" := by
  refine ⟨by rfl, by decide, by rfl⟩

/-- C4 (amended): when an EXECUTE (or EXECUTE_FILE) execution is
cancelled — the `cancelled` flag is set or the output or exception text
contains the break marker `--Break--` — the result the worker sends for
that command has status `"error"` with error text
`"Execution cancelled"` (not status `"success"`); the worker never
sends status `"cancelled"` for any execution result. -/
theorem c4_cancelled_execution_status (cancelled : Bool)
    (output errorStr : String) :
    ((cancelled = true ∨ containsBreak output = true) →
        classifyExecResult cancelled output
          = (false, output, "Execution cancelled") ∧
        executeSendStatus (classifyExecResult cancelled output).1
          = "error") ∧
    ((cancelled = true ∨ containsBreak errorStr = true) →
        classifyExecException cancelled errorStr
          = (false, "", "Execution cancelled") ∧
        executeSendStatus (classifyExecException cancelled errorStr).1
          = "error") ∧
    (∀ b : Bool, executeSendStatus b ≠ "cancelled") := by
  refine ⟨?_, ?_, ?_⟩
  · intro h
    have hc : (cancelled || containsBreak output) = true := by
      rcases h with h | h <;> simp [h]
    simp [classifyExecResult, executeSendStatus, hc]
  · intro h
    have hc : (containsBreak errorStr || cancelled) = true := by
      rcases h with h | h <;> simp [h]
    simp [classifyExecException, executeSendStatus, hc]
  · intro b
    cases b <;> decide

/-- Witness for C4's amended theorem at a concrete cancelled run. -/
theorem c4_cancelled_execution_status_witness :
    classifyExecResult true "ok" = (false, "ok", "Execution cancelled") ∧
    executeSendStatus (classifyExecResult true "ok").1 = "error" :=
  (c4_cancelled_execution_status true "ok" "boom").1 (Or.inl rfl)

/-! ### C8: effective timeout of `execute`/`execute_file` -/

/-- The effective timeout expression `timeout or self.command_timeout`,
used by `execute` both for the command payload and for the
`_execute_command` deadline argument (`session_manager.py`
lines 534-539) and likewise by `execute_file` (lines 617-627).  Python
treats `None` and `0` as falsy and every other number — negative
numbers included — as truthy. -/
def effectiveTimeout (timeout : Option ℤ) (commandTimeout : ℤ) : ℤ :=
  match timeout with
  | none => commandTimeout
  | some v => if v = 0 then commandTimeout else v

/-- C8 counterexample: a negative timeout argument (−1) is not replaced
by the configured default (600); it is passed through unchanged. -/
theorem c8_counterexample :
    effectiveTimeout (some (-1)) 600 = -1 ∧ (-1 : ℤ) ≠ 600 := by
  refine ⟨by rfl, by decide⟩

/-- C8 (amended): a timeout argument of `None` or `0` is replaced by
the configured default `command_timeout`, but a nonzero (in particular
negative) timeout is used unchanged for the command payload and the
result-queue deadline. -/
theorem c8_zero_timeout_defaults (d v : ℤ) :
    effectiveTimeout none d = d ∧
    effectiveTimeout (some 0) d = d ∧
    (v ≠ 0 → effectiveTimeout (some v) d = v) := by
  refine ⟨rfl, rfl, ?_⟩
  intro hv
  simp [effectiveTimeout, hv]

/-- Witness for C8's amended theorem at `v = −1`, `d = 600`. -/
theorem c8_zero_timeout_defaults_witness :
    effectiveTimeout (some (-1)) 600 = -1 :=
  (c8_zero_timeout_defaults 600 (-1)).2.2 (by decide)

/-! ### C5: `stop_execution` on an idle session
(`session_manager.py` lines 685-726) -/

/-- Setting session `key`'s stop event, the effect of
`session.stop_event.set()` (line 712), as a registry update. -/
def setStopFlagInReg (reg : Registry) (key : String) : Registry :=
  reg.map fun p => if p.1 = key then (p.1, { p.2 with stopFlagSet := true }) else p

theorem lookup_setStopFlagInReg_self (reg : Registry) (key : String) :
    (setStopFlagInReg reg key).lookup key
      = (reg.lookup key).map fun s => { s with stopFlagSet := true } := by
  induction reg with
  | nil => rfl
  | cons p rest ih =>
      obtain ⟨k, v⟩ := p
      by_cases hk : k = key
      · subst hk
        simp only [setStopFlagInReg, List.map_cons, if_pos rfl]
        simp [List.lookup]
      · have hk' : (key == k) = false := by
          simp [Ne.symm hk]
        simp only [setStopFlagInReg, List.map_cons, if_neg hk] at ih ⊢
        simp [List.lookup, hk', ih]

/-- `SessionManager.stop_execution` (lines 685-726).  The immediately
returned `(status, message)` pairs are `some`; the queue-based fallback
(lines 720-726), reachable only for a BUSY session with no stop event,
delegates to `_execute_command` and is modelled as `none`. -/
def stopExecution (reg : Registry) (sid : Option String) :
    Option (String × String) × Registry :=
  match getSession reg sid with
  | none => (some ("error", "Session not found"), reg)
  | some s =>
      if s.hasStopEvent then
        (some ("stop_sent", "Stop signal sent via event"),
         setStopFlagInReg reg (sid.getD "default"))
      else if s.state = SessionStateE.busy then
        (none, reg)
      else
        (some ("not_running", "No execution running"), reg)

/-- C5 counterexample: on a READY session with no command in flight
(and a stop event, as every manager-created session has,
`_create_session_internal` line 291), `stop_execution` returns status
`"stop_sent"`, not `"not_running"`. -/
theorem c5_counterexample :
    ((stopExecution
        [("default", ⟨"default", SessionStateE.ready, none, true, false, true⟩)]
        none).1.map Prod.fst) = some "stop_sent" ∧
    some ("stop_sent" : String) ≠ some ("not_running" : String) := by
  refine ⟨by rfl, by decide⟩

/-- C5 (amended): for every session with a stop event (as all
manager-created sessions have) in state READY with no command in
flight, `stop_execution` returns status `"stop_sent"` and sets the
session's stop flag; the session's state and `current_command_id` are
unchanged (still READY, still none), and repeating the call returns
`"stop_sent"` again with the session still READY.  The `"not_running"`
reply exists only on the unreachable no-stop-event path and in the
worker's queue-based STOP branch. -/
theorem c5_idle_stop_returns_stop_sent (reg : Registry) (key : String)
    (s : SessionRec) (hlook : reg.lookup key = some s)
    (hev : s.hasStopEvent = true) (hready : s.state = SessionStateE.ready)
    (hnone : s.currentCommandId = none) :
    (stopExecution reg (some key)).1
        = some ("stop_sent", "Stop signal sent via event") ∧
    ((stopExecution reg (some key)).2.lookup key
        = some { s with stopFlagSet := true }) ∧
    ({ s with stopFlagSet := true } : SessionRec).state = SessionStateE.ready ∧
    ({ s with stopFlagSet := true } : SessionRec).currentCommandId = none ∧
    (stopExecution ((stopExecution reg (some key)).2) (some key)).1
        = some ("stop_sent", "Stop signal sent via event") := by
  have h1 : stopExecution reg (some key)
      = (some ("stop_sent", "Stop signal sent via event"),
         setStopFlagInReg reg key) := by
    simp [stopExecution, getSession, hlook, hev]
  have h2 : (setStopFlagInReg reg key).lookup key
      = some { s with stopFlagSet := true } := by
    rw [lookup_setStopFlagInReg_self, hlook]
    rfl
  refine ⟨by rw [h1], by rw [h1]; exact h2, by rw [hready], by rw [hnone], ?_⟩
  rw [h1]
  simp [stopExecution, getSession, h2, hev]

/-- Witness for C5's amended theorem on a concrete idle session. -/
theorem c5_idle_stop_returns_stop_sent_witness :
    (stopExecution
        [("default", ⟨"default", SessionStateE.ready, none, true, false, true⟩)]
        (some "default")).1
      = some ("stop_sent", "Stop signal sent via event") :=
  (c5_idle_stop_returns_stop_sent
      [("default", ⟨"default", SessionStateE.ready, none, true, false, true⟩)]
      "default" ⟨"default", SessionStateE.ready, none, true, false, true⟩
      (by rfl) (by rfl) (by rfl) (by rfl)).1

/-! ### C7 and C10: request routing (`session_manager.py`) -/

/-- States counted against the admission limit
(`create_session`, lines 253-257). -/
def isActiveState : SessionStateE → Bool
  | SessionStateE.ready => true
  | SessionStateE.busy => true
  | SessionStateE.creating => true
  | _ => false

/-- The number of active sessions (lines 253-257). -/
def activeCount (reg : Registry) : Nat :=
  (reg.filter fun p => isActiveState p.2.state).length

/-- The session record left by a successful
`_create_session_internal` (lines 288-331): a READY session with a
stop event and no command in flight. -/
def newReadySession (sid : String) (isDefault : Bool) : SessionRec :=
  { sessionId := sid
    state := SessionStateE.ready
    currentCommandId := none
    hasStopEvent := true
    stopFlagSet := false
    isDefault := isDefault }

/-- The session record left by a failed `_create_session_internal`
(lines 333-345): it is registered before the worker starts (line 304)
and marked ERROR on failure, but not removed. -/
def newErrorSession (sid : String) (isDefault : Bool) : SessionRec :=
  { sessionId := sid
    state := SessionStateE.error
    currentCommandId := none
    hasStopEvent := true
    stopFlagSet := false
    isDefault := isDefault }

/-- Return value of `create_session` (lines 242-273). -/
structure CreateResult where
  success : Bool
  sessionId : String
  error : String
  deriving DecidableEq, Repr

/-- `_create_session_internal` (lines 275-351), with worker startup
and `_init` handshake abstracted into the flag `initOk`. -/
def createInternal (initOk : Bool) (reg : Registry) (sid : String) :
    CreateResult × Registry :=
  if initOk then
    ({ success := true, sessionId := sid, error := "" },
     reg ++ [(sid, newReadySession sid false)])
  else
    ({ success := false, sessionId := "",
       error := "Failed to create worker process" },
     reg ++ [(sid, newErrorSession sid false)])

/-- `create_session` (lines 242-273): reject when the admission limit
is reached, report success without creating when the id already
exists, otherwise create; a missing id is replaced by the generated
`generatedId`. -/
def create_session (maxSessions : Nat) (initOk : Bool) (reg : Registry)
    (sid : Option String) (generatedId : String) : CreateResult × Registry :=
  if maxSessions ≤ activeCount reg then
    ({ success := false, sessionId := "",
       error := "Maximum sessions (" ++ toString maxSessions ++ ") reached" },
     reg)
  else
    match sid with
    | some id =>
        if (reg.lookup id).isSome then
          ({ success := true, sessionId := id, error := "" }, reg)
        else createInternal initOk reg id
    | none => createInternal initOk reg generatedId

/-- Outcome of the routing phase of `execute`/`execute_file`: either
the key of the session the command is actually run on (whose
`session_id` the response will carry, `_execute_command` line 818), or
an error response. -/
inductive RouteOutcome where
  | run (sessionKey : String)
  | errorMsg (msg : String)
  deriving DecidableEq, Repr

/-- The busy/ready dispatch of `execute` (lines 508-530) and
`execute_file` (lines 586-608): a BUSY session triggers creation of a
fresh spillover session with a generated id (`freshId`, line 511) and
the request runs there; a session neither BUSY nor READY is an
error. -/
def executeDispatch (maxSessions : Nat) (initOk : Bool) (reg : Registry)
    (s : SessionRec) (freshId : String) : RouteOutcome × Registry :=
  if s.state = SessionStateE.busy then
    match create_session maxSessions initOk reg (some freshId) freshId with
    | (cr, reg') =>
        if cr.success then
          match reg'.lookup freshId with
          | some s2 => (RouteOutcome.run s2.sessionId, reg')
          | none =>
              (RouteOutcome.errorMsg "Failed to get newly created session", reg')
        else
          (RouteOutcome.errorMsg
            ("Session busy and failed to create new session: " ++ cr.error),
           reg')
  else if s.state ≠ SessionStateE.ready then
    (RouteOutcome.errorMsg ("Session not ready: " ++ sessionStateValue s.state),
     reg)
  else
    (RouteOutcome.run s.sessionId, reg)

/-- The routing of `execute` (lines 485-539) and `execute_file`
(lines 563-627), which is identical in both: look the session up,
auto-create a missing non-default session, then dispatch on its
state. -/
def executeRoute (maxSessions : Nat) (initOk : Bool) (reg : Registry)
    (sid : Option String) (freshId : String) : RouteOutcome × Registry :=
  match getSession reg sid with
  | some s => executeDispatch maxSessions initOk reg s freshId
  | none =>
      match sid with
      | some id =>
          if id = "default" then
            (RouteOutcome.errorMsg ("Session not found: " ++ id), reg)
          else
            match create_session maxSessions initOk reg (some id) freshId with
            | (cr, reg') =>
                if cr.success then
                  match reg'.lookup id with
                  | some s => executeDispatch maxSessions initOk reg' s freshId
                  | none =>
                      (RouteOutcome.errorMsg
                        ("Session creation succeeded but session not found: "
                          ++ id),
                       reg')
                else
                  (RouteOutcome.errorMsg
                    ("Failed to auto-create session: " ++ cr.error),
                   reg')
      | none => (RouteOutcome.errorMsg "Session not found: default", reg)

/-- `SessionManager.get_data` routing (lines 629-660): a missing
session is an error (no auto-creation), and a session whose state is
not READY — BUSY included — is an error (no spillover). -/
def getDataRoute (reg : Registry) (sid : Option String) :
    RouteOutcome × Registry :=
  match getSession reg sid with
  | none =>
      (RouteOutcome.errorMsg ("Session not found: " ++ sid.getD "default"), reg)
  | some s =>
      if s.state ≠ SessionStateE.ready then
        (RouteOutcome.errorMsg
          ("Session not ready: " ++ sessionStateValue s.state), reg)
      else (RouteOutcome.run s.sessionId, reg)

theorem lookup_append_self_of_none {reg : Registry} {key : String}
    (v : SessionRec) (h : reg.lookup key = none) :
    (reg ++ [(key, v)]).lookup key = some v := by
  induction reg with
  | nil => simp [List.lookup]
  | cons p rest ih =>
      obtain ⟨k, w⟩ := p
      by_cases hk : key = k
      · subst hk
        simp only [List.lookup, beq_self_eq_true] at h
        exact Option.noConfusion h
      · have hk' : (key == k) = false := by simp [hk]
        simp only [List.lookup, hk'] at h
        simp only [List.cons_append, List.lookup, hk']
        exact ih h

/-- C7: For every `execute` or `execute_file` request whose target
session exists and is BUSY, the manager creates a fresh spillover
session under the newly generated id, runs this single request on it,
and the returned outcome carries the spillover session's id — which
differs from the originally requested one. -/
theorem c7_busy_spillover (maxSessions : Nat) (reg : Registry)
    (sid : Option String) (s : SessionRec) (freshId : String)
    (hlook : getSession reg sid = some s)
    (hbusy : s.state = SessionStateE.busy)
    (hcap : activeCount reg < maxSessions)
    (hfresh : reg.lookup freshId = none) :
    executeRoute maxSessions true reg sid freshId
      = (RouteOutcome.run freshId,
         reg ++ [(freshId, newReadySession freshId false)]) ∧
    freshId ≠ sid.getD "default" := by
  constructor
  · have hcap' : ¬ maxSessions ≤ activeCount reg := not_le.mpr hcap
    have hcr : create_session maxSessions true reg (some freshId) freshId
        = ({ success := true, sessionId := freshId, error := "" },
           reg ++ [(freshId, newReadySession freshId false)]) := by
      simp [create_session, hcap', hfresh, createInternal]
    have hlk := lookup_append_self_of_none (newReadySession freshId false) hfresh
    have hroute : executeRoute maxSessions true reg sid freshId
        = (RouteOutcome.run (newReadySession freshId false).sessionId,
           reg ++ [(freshId, newReadySession freshId false)]) := by
      simp [executeRoute, hlook, executeDispatch, hbusy, hcr, hlk]
    rw [hroute]
    simp [newReadySession]
  · intro heq
    rw [getSession, ← heq, hfresh] at hlook
    exact Option.noConfusion hlook

/-- Witness for C7 on a registry holding one BUSY session `"A"`, with
generated spillover id `"B"`. -/
theorem c7_busy_spillover_witness :
    executeRoute 100 true
        [("A", ⟨"A", SessionStateE.busy, some "c0", true, false, false⟩)]
        (some "A") "B"
      = (RouteOutcome.run "B",
         [("A", ⟨"A", SessionStateE.busy, some "c0", true, false, false⟩),
          ("B", newReadySession "B" false)]) ∧
    "B" ≠ "A" := by
  have h := c7_busy_spillover 100
      [("A", ⟨"A", SessionStateE.busy, some "c0", true, false, false⟩)]
      (some "A") ⟨"A", SessionStateE.busy, some "c0", true, false, false⟩ "B"
      (by rfl) (by rfl) (by decide) (by rfl)
  exact ⟨h.1, h.2⟩

/-- C10: Unlike `execute` and `execute_file`, `get_data` never
auto-creates a missing session and never spills over from a BUSY one:
a missing session id yields an error with a `Session not found`
message, an existing session whose state is not READY (BUSY included)
yields an error with a `Session not ready` message, the registry is
never changed; whereas `execute` on the same missing non-default id
creates the session. -/
theorem c10_get_data_no_autocreate (reg : Registry) (sid : Option String) :
    (getSession reg sid = none →
      (getDataRoute reg sid).1
        = RouteOutcome.errorMsg ("Session not found: " ++ sid.getD "default")) ∧
    (∀ s, getSession reg sid = some s → s.state ≠ SessionStateE.ready →
      (getDataRoute reg sid).1
        = RouteOutcome.errorMsg
            ("Session not ready: " ++ sessionStateValue s.state)) ∧
    (getDataRoute reg sid).2 = reg ∧
    (∀ id, sid = some id → id ≠ "default" → getSession reg sid = none →
      ∀ maxSessions, activeCount reg < maxSessions →
        (executeRoute maxSessions true reg sid id).2
          = reg ++ [(id, newReadySession id false)]) := by
  refine ⟨?_, ?_, ?_, ?_⟩
  · intro h
    simp [getDataRoute, h]
  · intro s hs hns
    simp [getDataRoute, hs, hns]
  · rcases h : getSession reg sid with _ | s
    · simp [getDataRoute, h]
    · by_cases hns : s.state = SessionStateE.ready <;>
        simp [getDataRoute, h, hns]
  · intro id hid hdef hmiss maxSessions hcap
    subst hid
    have hcap' : ¬ maxSessions ≤ activeCount reg := not_le.mpr hcap
    have hmiss' : reg.lookup id = none := by
      rw [getSession] at hmiss
      exact hmiss
    have hcr : create_session maxSessions true reg (some id) id
        = ({ success := true, sessionId := id, error := "" },
           reg ++ [(id, newReadySession id false)]) := by
      simp [create_session, hcap', hmiss', createInternal]
    have hlk := lookup_append_self_of_none (newReadySession id false) hmiss'
    have hroute : executeRoute maxSessions true reg (some id) id
        = executeDispatch maxSessions true
            (reg ++ [(id, newReadySession id false)]) (newReadySession id false)
            id := by
      simp [executeRoute, getSession, hmiss', hdef, hcr, hlk]
    have hdisp : executeDispatch maxSessions true
        (reg ++ [(id, newReadySession id false)]) (newReadySession id false) id
        = (RouteOutcome.run id, reg ++ [(id, newReadySession id false)]) := by
      simp [executeDispatch, newReadySession]
    rw [hroute, hdisp]

/-- Witness for C10 on an empty registry and session id `"x"`. -/
theorem c10_get_data_no_autocreate_witness :
    (getDataRoute [] (some "x")).1
      = RouteOutcome.errorMsg "Session not found: x" ∧
    (executeRoute 100 true [] (some "x") "x").2
      = [("x", newReadySession "x" false)] := by
  have h := c10_get_data_no_autocreate [] (some "x")
  refine ⟨h.1 (by rfl), ?_⟩
  have h4 := h.2.2.2 "x" rfl (by decide) (by rfl) 100 (by decide)
  simpa using h4

/-! ### C9: `join_stata_line_continuations`
(`session_manager.py` lines 51-83)

Python strings are embedded as character lists here so that the string
scans evaluate by kernel reduction.  `rstrip()` strips the
`Char.isWhitespace` set (Python's default set restricted to ASCII
whitespace), and `splitlines()` is modelled for `\n` line terminators,
the only ones this code base produces. -/

/-- One Python string, as its character list. -/
abbrev PyStr := List Char

/-- Python `str.rstrip()`. -/
def pyRstrip (l : PyStr) : PyStr :=
  (l.reverse.dropWhile Char.isWhitespace).reverse

/-- The continuation marker `///` (line 70). -/
def contMarker : PyStr := ['/', '/', '/']

/-- `raw_line.rstrip().endswith('///')` (lines 69-70). -/
def isCont (l : PyStr) : Bool := contMarker.isSuffixOf (pyRstrip l)

/-- `stripped[:-3]`: all but the last three characters. -/
def dropLast3 (l : PyStr) : PyStr := l.take (l.length - 3)

/-- The fragment line 72 appends to `current_line`:
`stripped[:-3].rstrip() + " "`. -/
def contFragment (l : PyStr) : PyStr :=
  pyRstrip (dropLast3 (pyRstrip l)) ++ [' ']

/-- The loop of `join_stata_line_continuations` (lines 65-81), with
`current_line` as the accumulator, returning `joined_lines`; the final
`if current_line` check (lines 79-81) appends a pending nonempty
accumulator. -/
def joinLoop : List PyStr → PyStr → List PyStr
  | [], cur => if cur ≠ [] then [cur] else []
  | l :: ls, cur =>
      if isCont l then joinLoop ls (cur ++ contFragment l)
      else (cur ++ l) :: joinLoop ls []

/-- The value of `current_line` when the loop of lines 67-77 ends. -/
def finalCur : List PyStr → PyStr → PyStr
  | [], cur => cur
  | l :: ls, cur =>
      if isCont l then finalCur ls (cur ++ contFragment l)
      else finalCur ls []

/-- Split on newline characters, keeping empty segments. -/
def splitNl : PyStr → List PyStr
  | [] => [[]]
  | a :: rest =>
      if a = '\n' then [] :: splitNl rest
      else
        match splitNl rest with
        | [] => [[a]]
        | g :: gs => (a :: g) :: gs

/-- Python `str.splitlines()` for `\n` terminators: the empty string
has no lines, and a trailing newline does not open a final empty
line. -/
def pySplitlines (s : PyStr) : List PyStr :=
  if s = [] then []
  else if s.getLast? = some '\n' then (splitNl s).dropLast
  else splitNl s

/-- Whether the last logical line of the input carries the
continuation marker. -/
def lastIsCont : List PyStr → Bool
  | [] => false
  | [l] => isCont l
  | _ :: ls => lastIsCont ls

/-- `join_stata_line_continuations` (lines 51-83): split into logical
lines, join continuations, and re-join with newlines
(`"\n".join(joined_lines)`). -/
def join_stata_line_continuations (code : String) : String :=
  String.mk (List.intercalate ['\n'] (joinLoop (pySplitlines code.toList) []))

theorem contFragment_append_ne_nil (cur : PyStr) (l : PyStr) :
    cur ++ contFragment l ≠ [] := by
  simp [contFragment]

theorem joinLoop_length (lines : List PyStr) :
    ∀ cur, (joinLoop lines cur).length
      = (lines.filter fun l => ! isCont l).length
        + (if lines.isEmpty then (if cur = [] then 0 else 1)
           else if lastIsCont lines then 1 else 0) := by
  induction lines with
  | nil =>
      intro cur
      by_cases h : cur = [] <;> simp [joinLoop, h]
  | cons l ls ih =>
      intro cur
      by_cases hc : isCont l
      · rw [joinLoop, if_pos hc, ih]
        cases ls with
        | nil =>
            simp [List.filter, hc, lastIsCont,
                  contFragment_append_ne_nil cur l]
        | cons l2 ls2 =>
            simp [List.filter, hc, lastIsCont]
      · rw [joinLoop, if_neg hc, List.length_cons, ih]
        cases ls with
        | nil => simp [List.filter, hc, lastIsCont]
        | cons l2 ls2 =>
            simp [List.filter, hc, lastIsCont]
            omega

theorem getLast?_cons_of_ne_nil {α : Type} (x : α) {l : List α}
    (h : l ≠ []) : (x :: l).getLast? = l.getLast? := by
  cases l with
  | nil => exact absurd rfl h
  | cons b bs => rfl

theorem joinLoop_getLast_of_lastIsCont :
    ∀ lines : List PyStr, lastIsCont lines = true →
    ∀ cur, (joinLoop lines cur).getLast? = some (finalCur lines cur) ∧
      finalCur lines cur ≠ [] := by
  intro lines
  induction lines with
  | nil => intro h; exact absurd h (by simp [lastIsCont])
  | cons l ls ih =>
      intro h cur
      cases ls with
      | nil =>
          have hc : isCont l = true := by simpa [lastIsCont] using h
          refine ⟨?_, ?_⟩
          · simp [joinLoop, finalCur, hc, contFragment_append_ne_nil cur l]
          · simp [finalCur, hc, contFragment_append_ne_nil cur l]
      | cons l2 ls2 =>
          have h' : lastIsCont (l2 :: ls2) = true := by
            simpa [lastIsCont] using h
          by_cases hc : isCont l
          · rw [joinLoop, if_pos hc, finalCur, if_pos hc]
            exact ih h' (cur ++ contFragment l)
          · rw [joinLoop, if_neg hc, finalCur, if_neg hc]
            obtain ⟨h1, h2⟩ := ih h' []
            refine ⟨?_, h2⟩
            rw [getLast?_cons_of_ne_nil _ ?_, h1]
            intro hn
            rw [hn] at h1
            exact Option.noConfusion h1

/-- C9: `join_stata_line_continuations` joins every logical line ending
with the continuation marker `///` with its successor into one physical
line — a marked line followed by an unmarked one contributes a single
output line holding both fragments, and in general the number of output
lines is the number of unmarked logical lines, plus one when the last
logical line is marked — and for every input whose last logical line
ends with `///`, that trailing fragment (the pending accumulator) is
emitted, nonempty, as its own final line of the output. -/
theorem c9_line_continuation_joining (code : String) :
    ((joinLoop (pySplitlines code.toList) []).length
        = ((pySplitlines code.toList).filter fun l => ! isCont l).length
          + (if lastIsCont (pySplitlines code.toList) then 1 else 0)) ∧
    (∀ (cur l1 l2 : PyStr) (ls : List PyStr),
        isCont l1 = true → isCont l2 = false →
        joinLoop (l1 :: l2 :: ls) cur
          = (cur ++ contFragment l1 ++ l2) :: joinLoop ls []) ∧
    (lastIsCont (pySplitlines code.toList) = true →
      (joinLoop (pySplitlines code.toList) []).getLast?
          = some (finalCur (pySplitlines code.toList) []) ∧
      finalCur (pySplitlines code.toList) [] ≠ []) := by
  refine ⟨?_, ?_, ?_⟩
  · rw [joinLoop_length]
    cases h : pySplitlines code.toList with
    | nil => simp [lastIsCont]
    | cons l ls => simp
  · intro cur l1 l2 ls h1 h2
    rw [joinLoop, if_pos h1, joinLoop, if_neg (by simp [h2]),
        List.append_assoc]
  · intro h
    exact joinLoop_getLast_of_lastIsCont _ h []

/-- Witness for C9 at the script `"a ///"` (last logical line marked)
and at a marked line followed by an unmarked one. -/
theorem c9_line_continuation_joining_witness :
    ((joinLoop (pySplitlines ("a ///" : String).toList) []).getLast?
        = some (finalCur (pySplitlines ("a ///" : String).toList) []) ∧
      finalCur (pySplitlines ("a ///" : String).toList) [] ≠ []) ∧
    joinLoop [['a', ' ', '/', '/', '/'], ['b']] []
      = ([] ++ contFragment ['a', ' ', '/', '/', '/'] ++ ['b'])
          :: joinLoop [] [] :=
  ⟨(c9_line_continuation_joining "a ///").2.2 (by decide),
   (c9_line_continuation_joining "a ///").2.1 [] ['a', ' ', '/', '/', '/']
     ['b'] [] (by decide) (by decide)⟩

end StataMcp
